import Mathlib

/-!
# Verification of the kash-money core logic

Shallow embedding of the core business logic of the kash-money web
application (invoice-number allocation, plan-limit enforcement, budget
total computation, budget creation from recurring templates, the invoice
editor's line-item operations, and the storage-layer error behaviour),
together with proofs and refutations of the specified properties.

Modelling conventions:
* JS `number` amounts are modelled as exact rationals (`Rat`).
* Timestamps compared for month bucketing (`limits.ts`) are modelled as
  calendar triples `JsTime` (year, 0-based month, instant within the
  month), ordered lexicographically — order-isomorphic to the epoch
  millisecond ordering used by JS `Date` comparisons.
* Date arithmetic in the invoice editor (`Admin.tsx`), which works on
  epoch milliseconds, is modelled with `Int` millisecond timestamps.
* Firestore is modelled as a function from user id to that user's
  document subtree; a rejected promise is modelled by a `backendOk`
  flag where a claim depends on failure behaviour.
* `async` functions that can throw return `Except AppError`; functions
  that swallow all errors return plain values.
-/

/-! ## Decimal rendering (JS `Number.prototype.toString` on integers) -/

/-- Decimal digits of `n`, most significant first, by repeated division;
`fuel` only bounds the recursion (any `fuel > n` is enough). -/
def decDigits (fuel : Nat) (n : Nat) : List Nat :=
  match fuel with
  | 0 => []
  | fuel + 1 => if n < 10 then [n] else decDigits fuel (n / 10) ++ [n % 10]

/-- Decimal string of a natural number, as produced by JS `toString()`. -/
def decString (n : Nat) : String :=
  ⟨(decDigits (n + 1) n).map Nat.digitChar⟩

/-- Decimal string of an integer, as produced by JS string interpolation. -/
def intString (i : Int) : String :=
  if i < 0 then "-" ++ decString i.natAbs else decString i.toNat

/-- JS `String.prototype.padStart(width, c)`: left-pad to `width` with `c`
(never truncates). -/
def padStart (s : String) (width : Nat) (c : Char) : String :=
  ⟨List.replicate (width - s.length) c⟩ ++ s

theorem decDigits_mem_lt (fuel n : Nat) :
    ∀ d ∈ decDigits fuel n, d < 10 := by
  induction fuel generalizing n with
  | zero => intro d hd; simp [decDigits] at hd
  | succ fuel ih =>
    intro d hd
    rw [decDigits] at hd
    split at hd
    · next h => simp at hd; omega
    · next h =>
      rcases List.mem_append.1 hd with h1 | h2
      · exact ih _ d h1
      · simp at h2; omega

theorem decDigits_length_eq (k : Nat) :
    ∀ fuel n, 10 ^ k ≤ n → n < 10 ^ (k + 1) → k < fuel →
      (decDigits fuel n).length = k + 1 := by
  induction k with
  | zero =>
    intro fuel n h1 h2 h3
    match fuel with
    | fuel + 1 =>
      rw [decDigits]
      simp at h2
      simp [h2]
  | succ k ih =>
    intro fuel n h1 h2 h3
    match fuel with
    | fuel + 1 =>
      rw [decDigits]
      have hn : ¬ n < 10 := by
        have : 10 ≤ 10 ^ (k + 1) := by
          have := Nat.one_le_two_pow (n := k)
          calc 10 = 10 ^ 1 := (pow_one 10).symm
          _ ≤ 10 ^ (k + 1) := Nat.pow_le_pow_right (by omega) (by omega)
        omega
      simp only [hn, if_false]
      rw [List.length_append]
      have hdiv1 : 10 ^ k ≤ n / 10 := by
        rw [Nat.le_div_iff_mul_le (by omega)]
        calc 10 ^ k * 10 = 10 ^ (k + 1) := by ring
        _ ≤ n := h1
      have hdiv2 : n / 10 < 10 ^ (k + 1) := by
        rw [Nat.div_lt_iff_lt_mul (by omega)]
        calc n < 10 ^ (k + 2) := h2
        _ = 10 ^ (k + 1) * 10 := by ring
      rw [ih fuel (n / 10) hdiv1 hdiv2 (by omega)]
      simp

theorem decString_length_four (n : Nat) (h1 : 1000 ≤ n) (h2 : n ≤ 9999) :
    (decString n).length = 4 := by
  have := decDigits_length_eq 3 (n + 1) n (by omega) (by norm_num; omega) (by omega)
  simp [decString, String.length, this]

theorem decString_length_le_four (n : Nat) (h2 : n ≤ 9999) :
    (decString n).length ≤ 4 ∧ 1 ≤ (decString n).length := by
  have hcase : (decDigits (n + 1) n).length ≤ 4 ∧ 1 ≤ (decDigits (n + 1) n).length := by
    rcases Nat.lt_or_ge n 10 with h | h
    · rw [decDigits]; simp [h]
    rcases Nat.lt_or_ge n 100 with h' | h'
    · have := decDigits_length_eq 1 (n + 1) n (by omega) (by omega) (by omega)
      omega
    rcases Nat.lt_or_ge n 1000 with h'' | h''
    · have := decDigits_length_eq 2 (n + 1) n (by omega) (by omega) (by omega)
      omega
    · have := decDigits_length_eq 3 (n + 1) n (by omega) (by norm_num; omega) (by omega)
      omega
  simpa [decString, String.length] using hcase

theorem digitChar_isDigit : ∀ d < 10, (Nat.digitChar d).isDigit = true := by
  decide

theorem decString_digits (n : Nat) :
    ∀ c ∈ (decString n).data, c.isDigit = true := by
  intro c hc
  simp only [decString, String.data] at hc
  rcases List.mem_map.1 hc with ⟨d, hd, rfl⟩
  exact digitChar_isDigit d (decDigits_mem_lt (n + 1) n d hd)

/-! ## limits.ts -/

/-- Error conditions surfaced by the storage layer. `planLimit` models the
`Error` built by `createPlanLimitError` (its user-facing message is elided;
the claim-relevant part is the stable `code`). `backendFailure` models a
rejected Firestore promise. -/
inductive AppError where
  | unauthenticated
  | planLimit (code : String)
  | backendFailure
deriving DecidableEq

def PLAN_LIMIT_REACHED_ERROR : String := "PLAN_LIMIT_REACHED"

/-- `createPlanLimitError` from `limits.ts`: an error carrying the stable
code `PLAN_LIMIT_REACHED`. -/
def createPlanLimitError : AppError :=
  AppError.planLimit PLAN_LIMIT_REACHED_ERROR

/-- `isPlanLimitError` from `limits.ts`. -/
def isPlanLimitError : AppError → Bool
  | AppError.planLimit c => c == PLAN_LIMIT_REACHED_ERROR
  | _ => false

/-- A JS `Date` instant, abstracted as (year, 0-based month, offset within
the month). Lexicographic comparison of valid triples (month < 12) agrees
with the epoch-millisecond comparison JS performs on `Date` objects. -/
structure JsTime where
  year : Int
  month : Nat
  rest : Nat
deriving DecidableEq

/-- JS `<` on `Date` (epoch order), on the calendar abstraction. -/
def JsTime.ltb (a b : JsTime) : Bool :=
  a.year < b.year ||
    (a.year == b.year &&
      (a.month < b.month || (a.month == b.month && a.rest < b.rest)))

/-- JS `>=` on `Date` (epoch order), on the calendar abstraction. -/
def JsTime.leb (a b : JsTime) : Bool :=
  a.ltb b || a == b

/-- `new Date(now.getFullYear(), now.getMonth(), 1)`. -/
def monthStart (now : JsTime) : JsTime :=
  ⟨now.year, now.month, 0⟩

/-- `new Date(now.getFullYear(), now.getMonth() + 1, 1)`; JS `Date`
normalizes a month overflow into the next year. -/
def nextMonthStart (now : JsTime) : JsTime :=
  if now.month + 1 < 12 then ⟨now.year, now.month + 1, 0⟩
  else ⟨now.year + 1, now.month + 1 - 12, 0⟩

/-- `countItemsCreatedThisMonth` from `limits.ts`: counts the items whose
`dateCreated` lies in `[monthStart, nextMonthStart)`. Generic in the item
type, as the TS function is (`T extends { dateCreated: string }`). -/
def countItemsCreatedThisMonth {α : Type} (dateCreated : α → JsTime)
    (now : JsTime) (items : List α) : Nat :=
  (items.filter (fun item =>
    (monthStart now).leb (dateCreated item) &&
      (dateCreated item).ltb (nextMonthStart now))).length

/-! ## Data model (`types/billing.ts`, `types/budget.ts`,
`types/superAdmin.ts`) -/

structure Client where
  id : String
  name : String
  email : String
  hourlyRate : Rat
  dateCreated : JsTime
deriving DecidableEq

structure InvoiceLineItem where
  id : String
  description : String
  hours : Rat
  rate : Rat
  amount : Rat
deriving DecidableEq

/-- A stored invoice document. `status` is kept as a raw string because
legacy documents may carry non-normalized casing (see
`normalizeInvoiceStatus`). -/
structure Invoice where
  id : String
  invoiceNumber : String
  clientId : String
  dateCreated : JsTime
  dateDue : JsTime
  status : String
  lineItems : List InvoiceLineItem
  total : Rat
deriving DecidableEq

inductive LineItemStatus where
  | incomplete
  | complete
  | automatic
deriving DecidableEq

structure BudgetLineItem where
  id : String
  status : LineItemStatus
  name : String
  amount : Rat
  link : Option String
  note : Option String
  isRecurring : Bool
  isMarked : Bool
deriving DecidableEq

structure Budget where
  id : String
  name : String
  dateCreated : JsTime
  startingAmount : Rat
  lineItems : List BudgetLineItem
deriving DecidableEq

/-- `order` is optional at the document level: pre-migration documents may
lack it (`a.order ?? Number.MAX_SAFE_INTEGER` in `getRecurringExpenses`). -/
structure RecurringExpense where
  id : String
  name : String
  amount : Rat
  link : Option String
  note : Option String
  isAutomatic : Option Bool
  order : Option Nat
deriving DecidableEq

structure InvoiceCounter where
  year : Int
  count : Nat
deriving DecidableEq

inductive PlanName where
  | Free
  | Basic
  | Pro
  | Advanced
deriving DecidableEq

structure UserLimits where
  plan : PlanName
  clients : Nat
  invoicesPerMonth : Nat
  budgetsPerMonth : Nat
  recurringTemplates : Nat
deriving DecidableEq

/-- The per-user `settings/limits` override document: every field may be
absent. -/
structure LimitsOverride where
  plan : Option PlanName
  clients : Option Nat
  invoicesPerMonth : Option Nat
  budgetsPerMonth : Option Nat
  recurringTemplates : Option Nat
deriving DecidableEq

/-- One user's Firestore subtree. -/
structure UserData where
  clients : List Client
  invoices : List Invoice
  budgets : List Budget
  recurringExpenses : List RecurringExpense
  limitsDoc : Option LimitsOverride
  invoiceCounter : Option InvoiceCounter

/-- The Firestore database: a per-user document subtree for every uid. -/
def Database : Type := String → UserData

/-- Rewrite one user's subtree. -/
def Database.update (db : Database) (uid : String)
    (f : UserData → UserData) : Database :=
  fun u => if u = uid then f (db u) else db u

/-- `setDoc` keyed by id: overwrite the document with this id, or create
it. -/
def upsertById {α : Type} (getId : α → String) (l : List α) (x : α) :
    List α :=
  if l.any (fun y => getId y == getId x) then
    l.map (fun y => if getId y == getId x then x else y)
  else l ++ [x]

/-! ## superAdminStorage.ts -/

def getDefaultLimitsForPlan : PlanName → UserLimits
  | PlanName.Free =>
      { plan := PlanName.Free, clients := 1, invoicesPerMonth := 2,
        budgetsPerMonth := 1, recurringTemplates := 5 }
  | PlanName.Basic =>
      { plan := PlanName.Basic, clients := 5, invoicesPerMonth := 10,
        budgetsPerMonth := 5, recurringTemplates := 25 }
  | PlanName.Pro =>
      { plan := PlanName.Pro, clients := 50, invoicesPerMonth := 100,
        budgetsPerMonth := 20, recurringTemplates := 100 }
  | PlanName.Advanced =>
      { plan := PlanName.Advanced, clients := 1000, invoicesPerMonth := 1000,
        budgetsPerMonth := 100, recurringTemplates := 1000 }

/-- `getCurrentUserLimits`: with no signed-in user it returns the Free-plan
defaults (it does not throw); otherwise it merges the `settings/limits`
override document over the plan defaults. -/
def getCurrentUserLimits (auth : Option String) (db : Database) :
    UserLimits :=
  match auth with
  | none => getDefaultLimitsForPlan PlanName.Free
  | some uid =>
    let overrideData := (db uid).limitsDoc
    let plan := (overrideData.bind (fun o => o.plan)).getD PlanName.Free
    let defaults := getDefaultLimitsForPlan plan
    { plan := plan
      clients := (overrideData.bind (fun o => o.clients)).getD defaults.clients
      invoicesPerMonth :=
        (overrideData.bind (fun o => o.invoicesPerMonth)).getD
          defaults.invoicesPerMonth
      budgetsPerMonth :=
        (overrideData.bind (fun o => o.budgetsPerMonth)).getD
          defaults.budgetsPerMonth
      recurringTemplates :=
        (overrideData.bind (fun o => o.recurringTemplates)).getD
          defaults.recurringTemplates }

/-! ## billingStorage.ts and storage.ts -/

/-- `getUserId` (identical helper in `billingStorage.ts` and `storage.ts`):
throws `User not authenticated` when no user is signed in. -/
def getUserId (auth : Option String) : Except AppError String :=
  match auth with
  | some uid => Except.ok uid
  | none => Except.error AppError.unauthenticated

/-- `normalizeInvoiceStatus`: lower-cases and validates a raw stored status
value. -/
def normalizeInvoiceStatus (status : String) : Option String :=
  let normalized := status.toLower
  if normalized == "draft" || normalized == "sent" || normalized == "paid"
      || normalized == "archived" then
    some normalized
  else none

/-- Body of `getClients` before the catch. The name-ordered query is
modelled as the stored enumeration order (no claim depends on order). -/
def getClientsExc (auth : Option String) (backendOk : Bool)
    (db : Database) : Except AppError (List Client) := do
  let uid ← getUserId auth
  if backendOk then pure (db uid).clients
  else Except.error AppError.backendFailure

/-- `getClients`: any failure is caught and yields `[]`. -/
def getClients (auth : Option String) (backendOk : Bool) (db : Database) :
    List Client :=
  match getClientsExc auth backendOk db with
  | Except.ok cs => cs
  | Except.error _ => []

/-- Body of `getClientsCount` before the catch (server-side aggregate). -/
def getClientsCountExc (auth : Option String) (backendOk : Bool)
    (db : Database) : Except AppError Nat := do
  let uid ← getUserId auth
  if backendOk then pure (db uid).clients.length
  else Except.error AppError.backendFailure

/-- `getClientsCount`: any failure is caught and yields `0`. -/
def getClientsCount (auth : Option String) (backendOk : Bool)
    (db : Database) : Nat :=
  match getClientsCountExc auth backendOk db with
  | Except.ok n => n
  | Except.error _ => 0

/-- Body of `getClient` before the catch: `getDoc` by id, absent → `none`. -/
def getClientExc (auth : Option String) (backendOk : Bool) (db : Database)
    (id : String) : Except AppError (Option Client) := do
  let uid ← getUserId auth
  if backendOk then pure ((db uid).clients.find? (fun c => c.id == id))
  else Except.error AppError.backendFailure

/-- `getClient`: any failure is caught and yields `undefined`. -/
def getClient (auth : Option String) (backendOk : Bool) (db : Database)
    (id : String) : Option Client :=
  match getClientExc auth backendOk db id with
  | Except.ok c => c
  | Except.error _ => none

/-- `createClient`: rejects with the plan-limit error when the total client
count has reached the limit, before any write; rethrows every failure. -/
def createClient (auth : Option String) (backendOk : Bool) (db : Database)
    (client : Client) : Except AppError Unit × Database :=
  match getUserId auth with
  | Except.error e => (Except.error e, db)
  | Except.ok uid =>
    if !backendOk then (Except.error AppError.backendFailure, db)
    else
      let existingClientsCount := getClientsCount auth backendOk db
      let limits := getCurrentUserLimits auth db
      if limits.clients ≤ existingClientsCount then
        (Except.error createPlanLimitError, db)
      else
        (Except.ok (), db.update uid (fun u =>
          { u with clients := upsertById Client.id u.clients client }))

/-- Body of `getInvoiceCounter` before the catch. -/
def getInvoiceCounterExc (auth : Option String) (backendOk : Bool)
    (db : Database) : Except AppError (Option InvoiceCounter) := do
  let uid ← getUserId auth
  if backendOk then pure (db uid).invoiceCounter
  else Except.error AppError.backendFailure

/-- `getInvoiceCounter`: any failure is caught and yields `null`. -/
def getInvoiceCounter (auth : Option String) (backendOk : Bool)
    (db : Database) : Option InvoiceCounter :=
  match getInvoiceCounterExc auth backendOk db with
  | Except.ok c => c
  | Except.error _ => none

/-- `updateInvoiceCounter`: the settings screen write — stores an arbitrary
`{year, count}` for the user. -/
def updateInvoiceCounter (auth : Option String) (db : Database)
    (year : Int) (count : Nat) : Except AppError Unit × Database :=
  match getUserId auth with
  | Except.error e => (Except.error e, db)
  | Except.ok uid =>
    (Except.ok (), db.update uid (fun u =>
      { u with invoiceCounter := some ⟨year, count⟩ }))

/-- `INV-${year}-${count.toString().padStart(4, '0')}`. -/
def formatInvoiceNumber (year : Int) (count : Nat) : String :=
  "INV-" ++ intString year ++ "-" ++ padStart (decString count) 4 '0'

/-- The transaction body of `getNextInvoiceNumber`: the state transition on
the counter document, and the returned invoice number. -/
def allocCounter (currentYear : Int) (counterDoc : Option InvoiceCounter) :
    InvoiceCounter × String :=
  match counterDoc with
  | none => (⟨currentYear, 1⟩, formatInvoiceNumber currentYear 1)
  | some data =>
    let year := if data.year ≠ currentYear then currentYear else data.year
    let count := if data.year ≠ currentYear then 1 else data.count + 1
    (⟨year, count⟩, formatInvoiceNumber year count)

/-- `getNextInvoiceNumber`: runs the transaction against the user's counter
document and returns the formatted number. -/
def getNextInvoiceNumber (auth : Option String) (currentYear : Int)
    (db : Database) : Except AppError String × Database :=
  match getUserId auth with
  | Except.error e => (Except.error e, db)
  | Except.ok uid =>
    let result := allocCounter currentYear (db uid).invoiceCounter
    (Except.ok result.2, db.update uid (fun u =>
      { u with invoiceCounter := some result.1 }))

/-- Body of `getInvoices` before the catch (date-ordered query modelled as
stored order; no claim depends on order). -/
def getInvoicesExc (auth : Option String) (backendOk : Bool)
    (db : Database) : Except AppError (List Invoice) := do
  let uid ← getUserId auth
  if backendOk then pure (db uid).invoices
  else Except.error AppError.backendFailure

/-- `getInvoices`: any failure is caught and yields `[]`. -/
def getInvoices (auth : Option String) (backendOk : Bool) (db : Database) :
    List Invoice :=
  match getInvoicesExc auth backendOk db with
  | Except.ok is => is
  | Except.error _ => []

/-- `getInvoicesCount`: NOTE the user id is resolved BEFORE the try/catch,
so the missing-user error propagates to the caller; only the aggregate and
fallback document reads are protected (aggregate failure falls back to a
normalized document scan, whose failure yields `0`). -/
def getInvoicesCount (auth : Option String) (aggOk fallbackOk : Bool)
    (db : Database) (status : String) : Except AppError Nat :=
  match getUserId auth with
  | Except.error e => Except.error e
  | Except.ok uid =>
    if aggOk then
      Except.ok (if status == "all" then (db uid).invoices.length
        else ((db uid).invoices.filter
          (fun i => i.status == status)).length)
    else if fallbackOk then
      Except.ok (if status == "all" then (db uid).invoices.length
        else ((db uid).invoices.filter
          (fun i => normalizeInvoiceStatus i.status == some status)).length)
    else Except.ok 0

/-- Body of `getInvoice` before the catch. -/
def getInvoiceExc (auth : Option String) (backendOk : Bool) (db : Database)
    (id : String) : Except AppError (Option Invoice) := do
  let uid ← getUserId auth
  if backendOk then pure ((db uid).invoices.find? (fun i => i.id == id))
  else Except.error AppError.backendFailure

/-- `getInvoice`: any failure is caught and yields `undefined`. -/
def getInvoice (auth : Option String) (backendOk : Bool) (db : Database)
    (id : String) : Option Invoice :=
  match getInvoiceExc auth backendOk db id with
  | Except.ok i => i
  | Except.error _ => none

/-- `createInvoice`: rejects with the plan-limit error when the number of
invoices created in the current calendar month has reached the limit,
before any write; rethrows every failure. -/
def createInvoice (auth : Option String) (backendOk : Bool) (now : JsTime)
    (db : Database) (invoice : Invoice) : Except AppError Unit × Database :=
  match getUserId auth with
  | Except.error e => (Except.error e, db)
  | Except.ok uid =>
    if !backendOk then (Except.error AppError.backendFailure, db)
    else
      let existingInvoices := getInvoices auth backendOk db
      let limits := getCurrentUserLimits auth db
      if limits.invoicesPerMonth ≤
          countItemsCreatedThisMonth Invoice.dateCreated now
            existingInvoices then
        (Except.error createPlanLimitError, db)
      else
        (Except.ok (), db.update uid (fun u =>
          { u with invoices := upsertById Invoice.id u.invoices invoice }))

/-- Body of `getBudgets` (`storage.ts`) before the catch. -/
def getBudgetsExc (auth : Option String) (backendOk : Bool)
    (db : Database) : Except AppError (List Budget) := do
  let uid ← getUserId auth
  if backendOk then pure (db uid).budgets
  else Except.error AppError.backendFailure

/-- `getBudgets`: any failure is caught and yields `[]`. -/
def getBudgets (auth : Option String) (backendOk : Bool) (db : Database) :
    List Budget :=
  match getBudgetsExc auth backendOk db with
  | Except.ok bs => bs
  | Except.error _ => []

/-- Body of `getBudget` before the catch. -/
def getBudgetExc (auth : Option String) (backendOk : Bool) (db : Database)
    (id : String) : Except AppError (Option Budget) := do
  let uid ← getUserId auth
  if backendOk then pure ((db uid).budgets.find? (fun b => b.id == id))
  else Except.error AppError.backendFailure

/-- `getBudget`: any failure is caught and yields `undefined`. -/
def getBudget (auth : Option String) (backendOk : Bool) (db : Database)
    (id : String) : Option Budget :=
  match getBudgetExc auth backendOk db id with
  | Except.ok b => b
  | Except.error _ => none

/-- `createBudget` (`storage.ts`): NO plan-limit check — it writes
unconditionally (`addDoc` appends a fresh document; the backend-generated
document id is abstracted by keeping `budget.id`). -/
def createBudget (auth : Option String) (db : Database) (budget : Budget) :
    Except AppError Unit × Database :=
  match getUserId auth with
  | Except.error e => (Except.error e, db)
  | Except.ok uid =>
    (Except.ok (), db.update uid (fun u =>
      { u with budgets := u.budgets ++ [budget] }))

/-- Body of `getRecurringExpenses` before the catch (the order-field sort
is modelled as the stored enumeration order; no claim depends on it). -/
def getRecurringExpensesExc (auth : Option String) (backendOk : Bool)
    (db : Database) : Except AppError (List RecurringExpense) := do
  let uid ← getUserId auth
  if backendOk then pure (db uid).recurringExpenses
  else Except.error AppError.backendFailure

/-- `getRecurringExpenses`: any failure is caught and yields `[]`. -/
def getRecurringExpenses (auth : Option String) (backendOk : Bool)
    (db : Database) : List RecurringExpense :=
  match getRecurringExpensesExc auth backendOk db with
  | Except.ok es => es
  | Except.error _ => []

/-- `createRecurringExpense` (`storage.ts`): NO plan-limit check — it
writes unconditionally (`setDoc` keyed by `expense.id`). -/
def createRecurringExpense (auth : Option String) (db : Database)
    (expense : RecurringExpense) : Except AppError Unit × Database :=
  match getUserId auth with
  | Except.error e => (Except.error e, db)
  | Except.ok uid =>
    (Except.ok (), db.update uid (fun u =>
      { u with recurringExpenses :=
          upsertById RecurringExpense.id u.recurringExpenses expense }))

/-! ## Budgets.tsx — creating a budget from the recurring templates -/

/-- The line item built for one recurring template in
`handleCreateBudget`. -/
def budgetLineItemOfExpense (newId : String) (expense : RecurringExpense) :
    BudgetLineItem :=
  let status :=
    if expense.amount == 0 then LineItemStatus.complete
    else if expense.isAutomatic.getD false then LineItemStatus.automatic
    else LineItemStatus.incomplete
  { id := newId, status := status, name := expense.name,
    amount := expense.amount, link := some (expense.link.getD ""),
    note := some (expense.note.getD ""), isRecurring := true,
    isMarked := false }

/-- `recurringExpenses.map(...)` from `handleCreateBudget`, with the
per-element `crypto.randomUUID()` modelled by an injected id source. -/
def copyLineItems (freshId : Nat → String) :
    Nat → List RecurringExpense → List BudgetLineItem
  | _, [] => []
  | i, expense :: rest =>
    budgetLineItemOfExpense (freshId i) expense ::
      copyLineItems freshId (i + 1) rest

/-- The budget value built by `handleCreateBudget`. -/
def handleCreateBudgetValue (freshId : Nat → String) (newId : String)
    (budgetName : String) (now : JsTime) (amount : Rat)
    (recurringExpenses : List RecurringExpense) : Budget :=
  { id := newId, name := budgetName, dateCreated := now,
    startingAmount := amount,
    lineItems := copyLineItems freshId 0 recurringExpenses }

/-! ## BudgetView.tsx — budget totals -/

structure BudgetTotals where
  unmarkedTotal : Rat
  finalTotal : Rat
deriving DecidableEq

/-- `calculateTotals` from `BudgetView.tsx` (`budget` is the page state,
`null` before loading). -/
def calculateTotals (budget : Option Budget) : BudgetTotals :=
  match budget with
  | none => ⟨0, 0⟩
  | some budget =>
    let unmarkedTotal :=
      (budget.lineItems.filter (fun item => !item.isMarked)).foldl
        (fun sum item => sum + item.amount) 0
    let allItemsTotal :=
      budget.lineItems.foldl (fun sum item => sum + item.amount) 0
    ⟨budget.startingAmount + unmarkedTotal,
      budget.startingAmount + allItemsTotal⟩

/-! ## Admin.tsx — the invoice editor

The editor works on ISO date strings through epoch milliseconds; dates are
modelled directly as epoch-millisecond integers. -/

/-- The invoice value held in the editor's state. -/
structure EditorInvoice where
  id : String
  invoiceNumber : String
  clientId : String
  dateCreated : Int
  dateDue : Int
  status : String
  lineItems : List InvoiceLineItem
  total : Rat
deriving DecidableEq

/-- The editor's initial state for a new invoice: `dateCreated` is now and
`dateDue` is now + 30 days (the two `Date` constructions are modelled at
the same instant). -/
def initialEditorInvoice (newId : String) (now : Int) : EditorInvoice :=
  { id := newId, invoiceNumber := "", clientId := "", dateCreated := now,
    dateDue := now + 30 * 24 * 60 * 60 * 1000, status := "draft",
    lineItems := [], total := 0 }

/-- `calculateDueDate`: created + 30 days, in epoch milliseconds. -/
def calculateDueDate (dateCreated : Int) : Int :=
  dateCreated + 30 * 24 * 60 * 60 * 1000

/-- `handleDateCreatedChange`: changing the creation date recomputes the
due date. -/
def handleDateCreatedChange (invoice : EditorInvoice) (dateCreated : Int) :
    EditorInvoice :=
  { invoice with
    dateCreated := dateCreated
    dateDue := calculateDueDate dateCreated }

/-- `addLineItem`: appends an empty line at the selected client's hourly
rate (`selectedClient?.hourlyRate || 0` is the `clientRate` argument); the
invoice total is not recomputed here. -/
def addLineItem (invoice : EditorInvoice) (newId : String)
    (clientRate : Rat) : EditorInvoice :=
  { invoice with lineItems := invoice.lineItems ++
      [{ id := newId, description := "", hours := 0, rate := clientRate,
         amount := 0 }] }

/-- A `Partial<InvoiceLineItem>` update object (absent field = key not
present in the object). -/
structure LineItemUpdate where
  description : Option String
  hours : Option Rat
  rate : Option Rat
  amount : Option Rat
deriving DecidableEq

/-- `{ ...item, ...updates }` followed by the conditional amount
recalculation in `updateLineItem`. -/
def applyLineItemUpdate (item : InvoiceLineItem)
    (updates : LineItemUpdate) : InvoiceLineItem :=
  let updated : InvoiceLineItem :=
    { item with
      description := updates.description.getD item.description,
      hours := updates.hours.getD item.hours,
      rate := updates.rate.getD item.rate,
      amount := updates.amount.getD item.amount }
  if updates.hours.isSome || updates.rate.isSome then
    { updated with amount := updated.hours * updated.rate }
  else updated

/-- `updateLineItem`: applies the update to the matching line and
recomputes the invoice total. -/
def updateLineItem (invoice : EditorInvoice) (id : String)
    (updates : LineItemUpdate) : EditorInvoice :=
  let updatedLineItems := invoice.lineItems.map (fun item =>
    if item.id == id then applyLineItemUpdate item updates else item)
  let total := updatedLineItems.foldl (fun sum item => sum + item.amount) 0
  { invoice with lineItems := updatedLineItems, total := total }

/-- `deleteLineItem`: removes the matching line and recomputes the invoice
total. -/
def deleteLineItem (invoice : EditorInvoice) (id : String) :
    EditorInvoice :=
  let updatedLineItems := invoice.lineItems.filter (fun item =>
    item.id != id)
  let total := updatedLineItems.foldl (fun sum item => sum + item.amount) 0
  { invoice with lineItems := updatedLineItems, total := total }

/-- The Invoice invariant of the spec: every line's amount is
`hours * rate` and the total is the sum of the line amounts. -/
def lineItemsInvariant (invoice : EditorInvoice) : Prop :=
  (∀ item ∈ invoice.lineItems, item.amount = item.hours * item.rate) ∧
    invoice.total = (invoice.lineItems.map (fun i => i.amount)).sum

/-- The due-date invariant of the spec: `dateDue = dateCreated + 30 days`. -/
def dueDateInvariant (invoice : EditorInvoice) : Prop :=
  invoice.dateDue = invoice.dateCreated + 30 * 24 * 60 * 60 * 1000

/-- Exact shape of the externally-visible invoice number contract:
`INV-` + 4 digits + `-` + 4 digits, nothing else. -/
def isInvoiceNumberFormat (s : String) : Bool :=
  match s.data with
  | ['I', 'N', 'V', '-', y1, y2, y3, y4, '-', c1, c2, c3, c4] =>
    y1.isDigit && y2.isDigit && y3.isDigit && y4.isDigit &&
      c1.isDigit && c2.isDigit && c3.isDigit && c4.isDigit
  | _ => false

/-- An empty per-user subtree (used for concrete instances). -/
def emptyUserData : UserData :=
  { clients := [], invoices := [], budgets := [], recurringExpenses := [],
    limitsDoc := none, invoiceCounter := none }

/-- A five-template recurring-expense list: exactly the Free-plan
`recurringTemplates` limit. -/
def fiveTemplates : List RecurringExpense :=
  [⟨"t1", "a", 1, none, none, none, none⟩,
    ⟨"t2", "b", 2, none, none, none, none⟩,
    ⟨"t3", "c", 3, none, none, none, none⟩,
    ⟨"t4", "d", 4, none, none, none, none⟩,
    ⟨"t5", "e", 5, none, none, none, none⟩]

/-- A database whose every user is on the Free plan with five recurring
templates stored (the template limit is reached). -/
def atTemplateLimitDb : Database :=
  fun _ => { emptyUserData with recurringExpenses := fiveTemplates }

/-- A database with empty subtrees for every user. -/
def emptyDb : Database := fun _ => emptyUserData

/-! ## Helper lemmas -/

theorem stringDataAppend (a b : String) :
    (a ++ b).data = a.data ++ b.data := by
  cases a; cases b; rfl

theorem stringEqOfData (a b : String) (h : a.data = b.data) : a = b := by
  cases a; cases b; simp_all

theorem foldlAddMap {β : Type} (f : β → Rat) (l : List β) (a : Rat) :
    l.foldl (fun sum item => sum + f item) a = a + (l.map f).sum := by
  induction l generalizing a with
  | nil => simp
  | cons x xs ih => simp [ih (a + f x)]; ring

/-- Both components of `calculateTotals`, expressed as sums over the
stored line items. -/
theorem calculateTotalsEq (b : Budget) :
    (calculateTotals (some b)).unmarkedTotal =
      b.startingAmount +
        ((b.lineItems.filter (fun i => !i.isMarked)).map
          (fun i => i.amount)).sum ∧
    (calculateTotals (some b)).finalTotal =
      b.startingAmount + (b.lineItems.map (fun i => i.amount)).sum := by
  simp [calculateTotals, foldlAddMap]

theorem sumSplitByMark (l : List BudgetLineItem) :
    (l.map (fun i => i.amount)).sum =
      ((l.filter (fun i => !i.isMarked)).map (fun i => i.amount)).sum +
        ((l.filter (fun i => i.isMarked)).map (fun i => i.amount)).sum := by
  induction l with
  | nil => simp
  | cons x xs ih =>
    by_cases h : x.isMarked <;> simp [h, ih] <;> ring

/-! ## The claims -/

/-- C3: for every budget, `unmarkedTotal` is `startingAmount` plus the sum
of `amount` over the items with `isMarked = false`, and `finalTotal` is
`startingAmount` plus the sum of `amount` over all items, summing in
stored order (amounts are modelled exactly, so the stored-order fold
equals the sum). -/
theorem budget_totals_correct (b : Budget) :
    (calculateTotals (some b)).unmarkedTotal =
      b.startingAmount +
        ((b.lineItems.filter (fun i => !i.isMarked)).map
          (fun i => i.amount)).sum ∧
    (calculateTotals (some b)).finalTotal =
      b.startingAmount + (b.lineItems.map (fun i => i.amount)).sum :=
  calculateTotalsEq b

/-- C4: for every budget, `finalTotal - unmarkedTotal` equals the sum of
`amount` over the marked items. -/
theorem budget_totals_difference (b : Budget) :
    (calculateTotals (some b)).finalTotal -
        (calculateTotals (some b)).unmarkedTotal =
      ((b.lineItems.filter (fun i => i.isMarked)).map
        (fun i => i.amount)).sum := by
  obtain ⟨h1, h2⟩ := calculateTotalsEq b
  rw [h1, h2, sumSplitByMark b.lineItems]
  ring

/-- C1: the allocator's state transition on the counter document: absent →
`{year: currentYear, count: 1}`; same year (whatever the stored count,
including one set via the settings screen) → `count + 1`; different year →
reset to `{year: currentYear, count: 1}` regardless of the old count; in
every case the returned string is formatted from the stored year and
count, and a call in year `y` against a stored `{year: y-1, count: C}`
returns `INV-<y>-0001`; the transaction wrapper stores exactly this
counter for the calling user. -/
theorem allocator_state_transition (y : Int) (c : InvoiceCounter) (C : Nat) :
    (allocCounter y none).1 = ⟨y, 1⟩ ∧
    (c.year = y → (allocCounter y (some c)).1 = ⟨y, c.count + 1⟩) ∧
    (c.year ≠ y → (allocCounter y (some c)).1 = ⟨y, 1⟩) ∧
    (∀ prev, (allocCounter y prev).2 =
      formatInvoiceNumber (allocCounter y prev).1.year
        (allocCounter y prev).1.count) ∧
    (allocCounter y (some ⟨y - 1, C⟩)).2 =
      "INV-" ++ intString y ++ "-0001" ∧
    (∀ uid db, getNextInvoiceNumber (some uid) y db =
      (Except.ok (allocCounter y ((db uid).invoiceCounter)).2,
        db.update uid (fun u =>
          { u with
            invoiceCounter :=
              some (allocCounter y ((db uid).invoiceCounter)).1 }))) := by
  refine ⟨rfl, ?_, ?_, ?_, ?_, fun uid db => rfl⟩
  · intro h
    simp [allocCounter, h]
  · intro h
    simp [allocCounter, h]
  · intro prev
    match prev with
    | none => rfl
    | some data =>
      by_cases h : data.year = y <;> simp [allocCounter, h]
  · have h : (y - 1 : Int) ≠ y := by omega
    have hpad : padStart (decString 1) 4 '0' = "0001" := by rfl
    have hdash : ("-" : String).data ++ ("0001" : String).data =
        ("-0001" : String).data := by rfl
    apply stringEqOfData
    simp [allocCounter, h, formatInvoiceNumber, hpad, stringDataAppend,
      hdash]

/-- Witness for C1 at concrete inputs: same-year increment from an
arbitrary (settings-screen) count, and the year-rollover reset. -/
theorem allocator_state_transition_witness :
    (allocCounter 2026 (some ⟨2026, 41⟩)).1 = ⟨2026, 42⟩ ∧
    (allocCounter 2026 (some ⟨2025, 7⟩)).1 = ⟨2026, 1⟩ ∧
    (allocCounter 2026 (some ⟨2025, 7⟩)).2 =
      "INV-" ++ intString 2026 ++ "-0001" := by
  refine ⟨?_, ?_, ?_⟩
  · exact (allocator_state_transition 2026 ⟨2026, 41⟩ 7).2.1 rfl
  · exact (allocator_state_transition 2026 ⟨2025, 7⟩ 7).2.2.1 (by decide)
  · have h := (allocator_state_transition 2026 ⟨2026, 0⟩ 7).2.2.2.2.1
    simpa using h

/-- C6: creating a budget from `N` recurring templates yields exactly `N`
line items; positionally, each item copies the template's `amount`,
`name`, `link` and `note` (absent `link`/`note` are copied as the empty
string, per `expense.link || ''`), and its status is `complete` when the
template amount is 0 (taking precedence over `isAutomatic`), else
`automatic` when `isAutomatic` is set, else `incomplete`. The construction
is a pure function of the template list, hence deterministic given the
same template set. -/
theorem budget_from_templates (freshId : Nat → String) (k : Nat)
    (es : List RecurringExpense) :
    (copyLineItems freshId k es).length = es.length ∧
    List.Forall₂ (fun (e : RecurringExpense) (item : BudgetLineItem) =>
      item.amount = e.amount ∧ item.name = e.name ∧
      item.link = some (e.link.getD "") ∧
      item.note = some (e.note.getD "") ∧
      item.isRecurring = true ∧ item.isMarked = false ∧
      item.status = (if e.amount = 0 then LineItemStatus.complete
        else if e.isAutomatic.getD false then LineItemStatus.automatic
        else LineItemStatus.incomplete))
      es (copyLineItems freshId k es) ∧
    (∀ newId budgetName now amount,
      (handleCreateBudgetValue freshId newId budgetName now amount
        es).lineItems = copyLineItems freshId 0 es) := by
  refine ⟨?_, ?_, fun newId budgetName now amount => rfl⟩
  · induction es generalizing k with
    | nil => rfl
    | cons e rest ih => simp [copyLineItems, ih]
  · induction es generalizing k with
    | nil => exact List.Forall₂.nil
    | cons e rest ih =>
      refine List.Forall₂.cons ?_ (ih (k + 1))
      refine ⟨rfl, rfl, rfl, rfl, rfl, rfl, ?_⟩
      simp only [budgetLineItemOfExpense, beq_iff_eq]

/-- C7: the editor's line-item operations preserve the invariant that each
line's amount is `hours * rate` and the total is the sum of the line
amounts (for updates as the editor issues them, which never set `amount`
directly); none of them touches the dates; and the due date, wherever the
editor sets it (initial state, creation-date change), is
`dateCreated + 30 days`. -/
theorem editor_preserves_invariants (newId itemId : String) (now t : Int)
    (clientRate : Rat) (inv : EditorInvoice) (u : LineItemUpdate)
    (hinv : lineItemsInvariant inv) (hu : u.amount = none) :
    (lineItemsInvariant (initialEditorInvoice newId now) ∧
      dueDateInvariant (initialEditorInvoice newId now)) ∧
    lineItemsInvariant (addLineItem inv newId clientRate) ∧
    lineItemsInvariant (updateLineItem inv itemId u) ∧
    lineItemsInvariant (deleteLineItem inv itemId) ∧
    ((addLineItem inv newId clientRate).dateCreated = inv.dateCreated ∧
      (addLineItem inv newId clientRate).dateDue = inv.dateDue) ∧
    ((updateLineItem inv itemId u).dateCreated = inv.dateCreated ∧
      (updateLineItem inv itemId u).dateDue = inv.dateDue) ∧
    ((deleteLineItem inv itemId).dateCreated = inv.dateCreated ∧
      (deleteLineItem inv itemId).dateDue = inv.dateDue) ∧
    dueDateInvariant (handleDateCreatedChange inv t) := by
  obtain ⟨hamounts, htotal⟩ := hinv
  refine ⟨⟨⟨?_, ?_⟩, ?_⟩, ?_, ?_, ?_, ⟨rfl, rfl⟩, ⟨rfl, rfl⟩, ⟨rfl, rfl⟩,
    ?_⟩
  · intro item hitem
    simp [initialEditorInvoice] at hitem
  · simp [initialEditorInvoice]
  · simp [initialEditorInvoice, dueDateInvariant]
  · constructor
    · intro item hitem
      rw [addLineItem] at hitem
      simp only [List.mem_append, List.mem_singleton] at hitem
      rcases hitem with h | h
      · exact hamounts item h
      · rw [h]; simp
    · simp [addLineItem, htotal]
  · constructor
    · intro item hitem
      simp only [updateLineItem, List.mem_map] at hitem
      obtain ⟨orig, horig, hdef⟩ := hitem
      by_cases hid : orig.id == itemId
      · rw [← hdef]
        simp only [hid, if_true]
        rcases hh : u.hours with _ | hv <;> rcases hr : u.rate with _ | rv <;>
          simp [applyLineItemUpdate, hh, hr, hu, hamounts orig horig]
      · rw [← hdef]
        simp only [hid, if_false, Bool.false_eq_true]
        exact hamounts orig horig
    · simp [updateLineItem, foldlAddMap]
  · constructor
    · intro item hitem
      simp only [deleteLineItem, List.mem_filter] at hitem
      exact hamounts item hitem.1
    · simp [deleteLineItem, foldlAddMap]
  · simp [handleDateCreatedChange, dueDateInvariant, calculateDueDate]

/-- Witness for C7: a concrete invoice with one line, updated through the
hours field. -/
theorem editor_preserves_invariants_witness :
    lineItemsInvariant
      (updateLineItem
        ⟨"i", "", "", 0, 2592000000, "draft", [⟨"li", "", 1, 50, 50⟩], 50⟩
        "li" ⟨none, some 2, none, none⟩) := by
  have hinvc : lineItemsInvariant
      ⟨"i", "", "", 0, 2592000000, "draft", [⟨"li", "", 1, 50, 50⟩], 50⟩ := by
    constructor
    · intro item hitem
      simp only [List.mem_singleton] at hitem
      subst hitem
      norm_num
    · norm_num
  have h := editor_preserves_invariants "x" "li" 0 5 50
    ⟨"i", "", "", 0, 2592000000, "draft", [⟨"li", "", 1, 50, 50⟩], 50⟩
    ⟨none, some 2, none, none⟩ hinvc rfl
  exact h.2.2.1

/-- C8: for a valid clock and valid item timestamps (calendar month in
0..11), the month-scoped count counts exactly the items whose creation
instant falls in `[monthStart, nextMonthStart)`, i.e. exactly the items
created in the current calendar month — so the last instant of month M is
counted and the first instant of month M+1 is not, including across the
December→January year boundary. -/
theorem month_window_count {α : Type} (dateCreated : α → JsTime)
    (now : JsTime) (items : List α) (hnow : now.month < 12)
    (hitems : ∀ i ∈ items, (dateCreated i).month < 12) :
    countItemsCreatedThisMonth dateCreated now items =
      (items.filter (fun i =>
        (dateCreated i).year == now.year &&
          (dateCreated i).month == now.month)).length := by
  unfold countItemsCreatedThisMonth
  congr 1
  apply List.filter_congr
  intro i hi
  have hv := hitems i hi
  rcases hd : dateCreated i with ⟨dy, dm, dr⟩
  rw [hd] at hv
  rcases hn : now with ⟨ny, nm, nr⟩
  rw [hn] at hnow
  simp only at hv hnow
  rw [Bool.eq_iff_iff]
  simp only [JsTime.leb, JsTime.ltb, monthStart, nextMonthStart,
    Bool.and_eq_true, Bool.or_eq_true, beq_iff_eq, decide_eq_true_eq,
    JsTime.mk.injEq]
  by_cases hm : nm + 1 < 12 <;>
    simp only [hm, if_true, if_false, JsTime.mk.injEq, Bool.or_eq_true,
      Bool.and_eq_true, beq_iff_eq, decide_eq_true_eq] <;>
    omega

/-- Witness for C8 at the December→January boundary: a clock in December
2025, one item at the last instant of December 2025 (counted) and one item
at the first instant of January 2026 (not counted). -/
theorem month_window_count_witness :
    countItemsCreatedThisMonth (fun t => t) ⟨2025, 11, 5⟩
      [⟨2025, 11, 999999⟩, ⟨2026, 0, 0⟩] = 1 := by
  have h := month_window_count (fun t : JsTime => t) ⟨2025, 11, 5⟩
    [⟨2025, 11, 999999⟩, ⟨2026, 0, 0⟩] (by decide) (by decide)
  rw [h]
  decide

/-- C2 (amended): only Client and Invoice creation check the count against
the limit; both raise the error with stable code `PLAN_LIMIT_REACHED`
before any write (the database is unchanged) when the limit is reached,
and write when under it. Budget and RecurringExpenseTemplate creation in
the storage layer performs NO limit check and writes unconditionally
(budget creation is guarded only in the UI page). -/
theorem plan_limit_enforcement (uid : String) (db : Database)
    (now : JsTime) (c : Client) (inv : Invoice) (b : Budget)
    (e : RecurringExpense)
    (hclients : (getCurrentUserLimits (some uid) db).clients ≤
      (db uid).clients.length)
    (hinvoices : (getCurrentUserLimits (some uid) db).invoicesPerMonth ≤
      countItemsCreatedThisMonth Invoice.dateCreated now
        (db uid).invoices) :
    createClient (some uid) true db c =
      (Except.error (AppError.planLimit "PLAN_LIMIT_REACHED"), db) ∧
    createInvoice (some uid) true now db inv =
      (Except.error (AppError.planLimit "PLAN_LIMIT_REACHED"), db) ∧
    createBudget (some uid) db b =
      (Except.ok (), db.update uid (fun u =>
        { u with budgets := u.budgets ++ [b] })) ∧
    createRecurringExpense (some uid) db e =
      (Except.ok (), db.update uid (fun u =>
        { u with recurringExpenses :=
            upsertById RecurringExpense.id u.recurringExpenses e })) := by
  refine ⟨?_, ?_, rfl, rfl⟩
  · have hcount : getClientsCount (some uid) true db =
        (db uid).clients.length := rfl
    simp only [createClient, getUserId, Bool.not_true, Bool.false_eq_true,
      if_false, hcount]
    rw [if_pos hclients]
    rfl
  · have hexisting : getInvoices (some uid) true db = (db uid).invoices :=
      rfl
    simp only [createInvoice, getUserId, Bool.not_true, Bool.false_eq_true,
      if_false, hexisting]
    rw [if_pos hinvoices]
    rfl

/-- Witness for C2 (amended) on a Free-plan user whose client count (1)
and monthly invoice count (2) are at their limits. -/
theorem plan_limit_enforcement_witness :
    createClient (some "u")
      true
      (fun _ => { emptyUserData with
        clients := [⟨"c1", "n", "e", 10, ⟨2026, 0, 1⟩⟩],
        invoices := [⟨"i1", "INV-2026-0001", "c1", ⟨2026, 0, 1⟩,
            ⟨2026, 1, 1⟩, "draft", [], 0⟩,
          ⟨"i2", "INV-2026-0002", "c1", ⟨2026, 0, 2⟩, ⟨2026, 1, 2⟩,
            "draft", [], 0⟩] })
      ⟨"c2", "m", "f", 20, ⟨2026, 0, 3⟩⟩ =
    (Except.error (AppError.planLimit "PLAN_LIMIT_REACHED"),
      fun _ => { emptyUserData with
        clients := [⟨"c1", "n", "e", 10, ⟨2026, 0, 1⟩⟩],
        invoices := [⟨"i1", "INV-2026-0001", "c1", ⟨2026, 0, 1⟩,
            ⟨2026, 1, 1⟩, "draft", [], 0⟩,
          ⟨"i2", "INV-2026-0002", "c1", ⟨2026, 0, 2⟩, ⟨2026, 1, 2⟩,
            "draft", [], 0⟩] }) := by
  exact (plan_limit_enforcement "u"
    (fun _ => { emptyUserData with
      clients := [⟨"c1", "n", "e", 10, ⟨2026, 0, 1⟩⟩],
      invoices := [⟨"i1", "INV-2026-0001", "c1", ⟨2026, 0, 1⟩,
          ⟨2026, 1, 1⟩, "draft", [], 0⟩,
        ⟨"i2", "INV-2026-0002", "c1", ⟨2026, 0, 2⟩, ⟨2026, 1, 2⟩,
          "draft", [], 0⟩] })
    ⟨2026, 0, 15⟩
    ⟨"c2", "m", "f", 20, ⟨2026, 0, 3⟩⟩
    ⟨"i3", "", "c1", ⟨2026, 0, 3⟩, ⟨2026, 1, 3⟩, "draft", [], 0⟩
    ⟨"b1", "b", ⟨2026, 0, 3⟩, 0, []⟩
    ⟨"t9", "t", 1, none, none, none, none⟩
    (by decide) (by decide)).1

/-- C2 counterexample: with the Free plan's limit of 5 recurring templates
already reached, creating a sixth template succeeds and performs the
write — no `PLAN_LIMIT_REACHED` error is raised, refuting the claim for
the RecurringExpenseTemplate resource kind. -/
theorem plan_limit_counterexample :
    (getCurrentUserLimits (some "u") atTemplateLimitDb).recurringTemplates
        = 5 ∧
    (atTemplateLimitDb "u").recurringExpenses.length = 5 ∧
    (createRecurringExpense (some "u") atTemplateLimitDb
      ⟨"t6", "new", 6, none, none, none, none⟩).1 = Except.ok () ∧
    (((createRecurringExpense (some "u") atTemplateLimitDb
      ⟨"t6", "new", 6, none, none, none, none⟩).2
        "u").recurringExpenses).length = 6 := by
  exact ⟨rfl, rfl, rfl, rfl⟩

/-- C9 (amended): operations that resolve the user identity do so through
`getUserId`, which fails with the unauthenticated condition when no user
is signed in; write operations propagate that failure and leave the
database unchanged, and no operation falls back to another user's data.
However, read accessors catch the failure internally and return the
empty/absent default instead of surfacing it, and `getCurrentUserLimits`
performs no check at all: with no user it silently returns the Free-plan
default limits. -/
theorem unauthenticated_behaviour (db : Database) (backendOk : Bool)
    (id : String) (now : JsTime) (c : Client) (inv : Invoice) (b : Budget)
    (e : RecurringExpense) (y : Int) (n : Nat) :
    getUserId none = Except.error AppError.unauthenticated ∧
    createClient none backendOk db c =
      (Except.error AppError.unauthenticated, db) ∧
    createInvoice none backendOk now db inv =
      (Except.error AppError.unauthenticated, db) ∧
    createBudget none db b = (Except.error AppError.unauthenticated, db) ∧
    createRecurringExpense none db e =
      (Except.error AppError.unauthenticated, db) ∧
    updateInvoiceCounter none db y n =
      (Except.error AppError.unauthenticated, db) ∧
    getNextInvoiceNumber none y db =
      (Except.error AppError.unauthenticated, db) ∧
    getClients none backendOk db = [] ∧
    getInvoices none backendOk db = [] ∧
    getBudgets none backendOk db = [] ∧
    getRecurringExpenses none backendOk db = [] ∧
    getClient none backendOk db id = none ∧
    getInvoice none backendOk db id = none ∧
    getBudget none backendOk db id = none ∧
    getInvoiceCounter none backendOk db = none ∧
    getCurrentUserLimits none db = getDefaultLimitsForPlan PlanName.Free :=
  ⟨rfl, rfl, rfl, rfl, rfl, rfl, rfl, rfl, rfl, rfl, rfl, rfl, rfl, rfl,
    rfl, rfl⟩

/-- C9 counterexample: with no signed-in user, the `settings/limits` read
(`getCurrentUserLimits`) does not fail with an unauthenticated condition —
it silently returns the Free-plan default limits — and the clients read
silently returns the default empty list, refuting "fails fast … and no
operation silently falls back to … default data". -/
theorem unauthenticated_counterexample :
    getCurrentUserLimits none emptyDb =
      { plan := PlanName.Free, clients := 1, invoicesPerMonth := 2,
        budgetsPerMonth := 1, recurringTemplates := 5 } ∧
    getClients none true emptyDb = [] :=
  ⟨rfl, rfl⟩

/-- C10 (amended): the enumerated read accessors are total and never
propagate a failure: on any failure (missing user or rejected backend
call) the list reads return `[]`, the single-entity reads return an
absent value, and `getInvoiceCounter` returns `null`. (The aggregate
count reads, e.g. `getInvoicesCount`, are NOT covered: they resolve the
user outside their protected region and propagate the missing-user
error.) -/
theorem read_accessors_default (auth : Option String) (backendOk : Bool)
    (db : Database) (id : String)
    (hfail : auth = none ∨ backendOk = false) :
    getClients auth backendOk db = [] ∧
    getBudgets auth backendOk db = [] ∧
    getInvoices auth backendOk db = [] ∧
    getRecurringExpenses auth backendOk db = [] ∧
    getClient auth backendOk db id = none ∧
    getBudget auth backendOk db id = none ∧
    getInvoice auth backendOk db id = none ∧
    getInvoiceCounter auth backendOk db = none := by
  rcases hfail with rfl | rfl
  · exact ⟨rfl, rfl, rfl, rfl, rfl, rfl, rfl, rfl⟩
  · cases auth with
    | none => exact ⟨rfl, rfl, rfl, rfl, rfl, rfl, rfl, rfl⟩
    | some uid => exact ⟨rfl, rfl, rfl, rfl, rfl, rfl, rfl, rfl⟩

/-- Witness for C10 (amended): both failure modes at concrete inputs —
missing user with a healthy backend, and a signed-in user with a rejected
backend call. -/
theorem read_accessors_default_witness :
    (getClients none true emptyDb = [] ∧
      getInvoiceCounter none true emptyDb = none) ∧
    (getBudgets (some "u") false emptyDb = [] ∧
      getBudget (some "u") false emptyDb "b1" = none) := by
  have h1 := read_accessors_default none true emptyDb "b1" (Or.inl rfl)
  have h2 := read_accessors_default (some "u") false emptyDb "b1"
    (Or.inr rfl)
  exact ⟨⟨h1.1, h1.2.2.2.2.2.2.2⟩, ⟨h2.2.1, h2.2.2.2.2.2.1⟩⟩

/-- C10 counterexample: `getInvoicesCount` is a read accessor at the
storage layer, yet with no signed-in user it propagates the
unauthenticated error to its caller instead of returning a default,
refuting "every read accessor … never propagates an error … only
create/update/delete operations rethrow". -/
theorem read_accessors_counterexample :
    getInvoicesCount none true true emptyDb "all" =
      Except.error AppError.unauthenticated :=
  rfl

theorem listLengthFour {γ : Type} : ∀ (l : List γ), l.length = 4 →
    ∃ a b c d, l = [a, b, c, d]
  | [a, b, c, d], _ => ⟨a, b, c, d, rfl⟩
  | [], h => by simp at h
  | [a], h => by simp at h
  | [a, b], h => by simp at h
  | [a, b, c], h => by simp at h
  | a :: b :: c :: d :: e :: t, h => by simp at h

theorem padStart_four (s : String) (h1 : 1 ≤ s.length)
    (h4 : s.length ≤ 4) (hd : ∀ c ∈ s.data, c.isDigit = true) :
    (padStart s 4 '0').data.length = 4 ∧
      ∀ c ∈ (padStart s 4 '0').data, c.isDigit = true := by
  have hdata : (padStart s 4 '0').data =
      List.replicate (4 - s.length) '0' ++ s.data := by
    simp [padStart, stringDataAppend]
  constructor
  · rw [hdata, List.length_append, List.length_replicate]
    have hls : s.length = s.data.length := rfl
    omega
  · intro c hc
    rw [hdata] at hc
    rcases List.mem_append.1 hc with h | h
    · have hzero := List.eq_of_mem_replicate h
      subst hzero
      decide
    · exact hd c h

theorem formatChars (ys cs : List Char) (hy : ys.length = 4)
    (hc : cs.length = 4) (hyd : ∀ ch ∈ ys, ch.isDigit = true)
    (hcd : ∀ ch ∈ cs, ch.isDigit = true) :
    isInvoiceNumberFormat ⟨'I' :: 'N' :: 'V' :: '-' :: (ys ++ '-' :: cs)⟩
      = true := by
  obtain ⟨a, b, c, d, rfl⟩ := listLengthFour ys hy
  obtain ⟨e, f, g, h, rfl⟩ := listLengthFour cs hc
  simp only [isInvoiceNumberFormat, List.cons_append, List.nil_append]
  simp [hyd a (by simp), hyd b (by simp), hyd c (by simp), hyd d (by simp),
    hcd e (by simp), hcd f (by simp), hcd g (by simp), hcd h (by simp)]

theorem allocCounter_facts (y : Int) (prev : Option InvoiceCounter) :
    (allocCounter y prev).1.year = y ∧
      1 ≤ (allocCounter y prev).1.count ∧
      (allocCounter y prev).2 =
        formatInvoiceNumber y (allocCounter y prev).1.count := by
  match prev with
  | none => exact ⟨rfl, Nat.le_refl 1, rfl⟩
  | some data =>
    by_cases h : data.year = y
    · refine ⟨?_, ?_, ?_⟩ <;> simp [allocCounter, h]
    · refine ⟨?_, ?_, ?_⟩ <;> simp [allocCounter, h]

/-- C5 (amended): when the wall-clock year has four digits and the
post-transition count is at most 9999 (the count is always at least 1), the
allocator's returned string has the exact form
`INV-<4-digit-year>-<4-digit, zero-padded sequence>` with fixed
separators, and the stored year is the wall-clock year passed to the
allocation. (Unamended, the claim fails: `padStart` never truncates, so a
count beyond 9999 — reachable via the settings screen — widens the
sequence field; see the counterexample.) -/
theorem invoice_number_format (y : Int) (prev : Option InvoiceCounter)
    (hy1 : 1000 ≤ y) (hy2 : y ≤ 9999)
    (hcount : (allocCounter y prev).1.count ≤ 9999) :
    isInvoiceNumberFormat (allocCounter y prev).2 = true ∧
    (allocCounter y prev).1.year = y := by
  obtain ⟨hyear, hc1, hstr⟩ := allocCounter_facts y prev
  refine ⟨?_, hyear⟩
  rw [hstr]
  have hy0 : ¬ y < 0 := by omega
  have hysEq : intString y = decString y.toNat := by
    simp [intString, hy0]
  have hylen : (decString y.toNat).length = 4 :=
    decString_length_four y.toNat (by omega) (by omega)
  have hydig := decString_digits y.toNat
  have hclen := decString_length_le_four (allocCounter y prev).1.count
    hcount
  have hcdig := decString_digits (allocCounter y prev).1.count
  obtain ⟨hplen, hpdig⟩ :=
    padStart_four (decString (allocCounter y prev).1.count) hclen.2
      hclen.1 hcdig
  have hINV : ("INV-" : String).data = ['I', 'N', 'V', '-'] := rfl
  have hdashData : ("-" : String).data = ['-'] := rfl
  have hform : formatInvoiceNumber y (allocCounter y prev).1.count =
      ⟨'I' :: 'N' :: 'V' :: '-' :: ((decString y.toNat).data ++
        '-' :: (padStart (decString (allocCounter y prev).1.count) 4
          '0').data)⟩ := by
    apply stringEqOfData
    simp [formatInvoiceNumber, stringDataAppend, hysEq, hINV, hdashData]
  rw [hform]
  exact formatChars _ _ hylen hplen hydig hpdig

/-- Witness for C5 (amended): a same-year allocation at count 41 in 2026
produces a well-formed number. -/
theorem invoice_number_format_witness :
    isInvoiceNumberFormat (allocCounter 2026 (some ⟨2026, 41⟩)).2 =
      true :=
  (invoice_number_format 2026 (some ⟨2026, 41⟩) (by decide) (by decide)
    (by decide)).1

/-- C5 counterexample: with a stored count of 10000 for the current year
(reachable through the settings screen, which accepts an arbitrary
count), the next allocation returns `INV-2026-10001`: the sequence field
has width 5, so the returned string does not have the claimed exact
4-digit form. -/
theorem invoice_number_format_counterexample :
    (allocCounter 2026 (some ⟨2026, 10000⟩)).2 = "INV-2026-10001" ∧
    isInvoiceNumberFormat "INV-2026-10001" = false := by
  exact ⟨rfl, rfl⟩
